import Mathlib

/-!
Verification of the Studuino:bit communication and session layer of the Mu
editor fork (modules `mu/modes/base.py`, `mu/modes/studuinobit.py`,
`mu/interface/dialogs.py`).

Shallow embedding conventions used throughout this file:

* Bytes are `Nat` values (each < 256 on real inputs; no arithmetic overflows
  occur in the modelled code, which only compares and concatenates bytes).
* The serial input stream is a finite list of chunks `List (List Nat)`:
  one chunk is what `QSerialPort.readAll()` delivers after one successful
  `waitForReadyRead(timeout)`.  `waitForReadyRead` returning `False`
  (a timeout) is modelled by the stream being exhausted.
* Python exceptions are modelled with `Except`/`Option` result types.
* Qt / pyserial side effects are modelled as explicit event traces.
-/

/-- Python `token in buff` substring test on byte strings: `token` occurs as a
contiguous substring of `buff`. -/
def bcontains (buff token : List Nat) : Bool :=
  (List.range (buff.length + 1)).any fun i => token.isPrefixOf (buff.drop i)

theorem bcontains_iff (buff token : List Nat) :
    bcontains buff token = true ↔ token <:+: buff := by
  unfold bcontains
  simp only [List.any_eq_true, List.mem_range, List.isPrefixOf_iff_prefix]
  constructor
  · rintro ⟨i, -, t, ht⟩
    exact ⟨buff.take i, t, by rw [List.append_assoc, ht, List.take_append_drop]⟩
  · rintro ⟨s, t, hst⟩
    subst hst
    refine ⟨s.length, ?_, t, ?_⟩
    · simp only [List.length_append]
      omega
    · rw [List.append_assoc, List.drop_left]

theorem bcontains_append_of (buff c token : List Nat)
    (h : bcontains buff token = true) : bcontains (buff ++ c) token = true := by
  rw [bcontains_iff] at h ⊢
  exact h.trans (List.prefix_append buff c).isInfix

/-- The read loop of `StuduinoBitMode.read_until` (studuinobit.py:204-213):
starting from accumulated buffer `buff`, repeatedly wait for data (take the
next chunk; no chunk left = `waitForReadyRead` timeout), extend the buffer,
and stop once `token` is a substring of the buffer.  Returns the chunks left
unread on success, `none` on timeout. -/
def readUntilCore (token : List Nat) : List Nat → List (List Nat) →
    Option (List (List Nat))
  | _, [] => none
  | buff, c :: rest =>
    if bcontains (buff ++ c) token then some rest
    else readUntilCore token (buff ++ c) rest

/-- Exception text raised by `read_until` on timeout. -/
def timeoutMsg : String := "waitForReadyRead method timeout"

/-- `StuduinoBitMode.read_until(token, timeout)` (studuinobit.py:204-213).
The Python body is:
  buff = bytearray()
  while True:
      if not (self.serial.waitForReadyRead(timeout)):
          raise TimeoutError(...)
      data = bytes(self.serial.readAll())
      buff.extend(data)
      if token in buff:
          break
The loop ends by falling off the end of the function, so the Python return
value on success is None; the accumulated buffer is never returned.  The
`Option (List Nat)` in the result models that return value (it is always
`none` on the success path). -/
def StuduinoBitMode.read_until (token : List Nat) (chunks : List (List Nat)) :
    Except String (Option (List Nat)) :=
  match readUntilCore token [] chunks with
  | some _ => .ok none
  | none => .error timeoutMsg

theorem readUntilCore_isSome_iff (token : List Nat) :
    ∀ (chunks : List (List Nat)) (buff : List Nat),
      (readUntilCore token buff chunks).isSome = true ↔
        ∃ k, 0 < k ∧ k ≤ chunks.length ∧
          bcontains (buff ++ (chunks.take k).flatten) token = true := by
  intro chunks
  induction chunks with
  | nil =>
    intro buff
    simp [readUntilCore]
    omega
  | cons c rest ih =>
    intro buff
    simp only [readUntilCore]
    by_cases h : bcontains (buff ++ c) token = true
    · simp only [h, if_true, Option.isSome_some, true_iff]
      refine ⟨1, Nat.one_pos, by simp, ?_⟩
      simpa using h
    · simp only [h, if_false, Bool.false_eq_true, ih (buff ++ c)]
      constructor
      · rintro ⟨k, hk0, hkl, hb⟩
        refine ⟨k + 1, Nat.succ_pos _, by simpa using hkl, ?_⟩
        simpa [List.append_assoc] using hb
      · rintro ⟨k, hk0, hkl, hb⟩
        match k, hk0 with
        | k + 1, _ =>
          have hb' : bcontains ((buff ++ c) ++ (rest.take k).flatten) token
              = true := by
            simpa [List.append_assoc] using hb
          match k with
          | 0 =>
            exact absurd (by simpa using hb') h
          | k + 1 =>
            exact ⟨k + 1, Nat.succ_pos _, by simpa using hkl, hb'⟩

/-- Control byte 0x03 (Ctrl-C, interrupt). -/
def ctrlC : List Nat := [0x03]

/-- Control byte 0x01 (Ctrl-A, enter paste/raw mode). -/
def ctrlA : List Nat := [0x01]

/-- Control byte 0x04 (Ctrl-D, end of paste / execute). -/
def ctrlD : List Nat := [0x04]

/-- UTF-8 bytes of the primary prompt sentinel `">>> "`. -/
def promptTok : List Nat := [0x3E, 0x3E, 0x3E, 0x20]

/-- UTF-8 bytes of `"import machine\r\n"` (studuinobit.py:219). -/
def importMachineCmd : List Nat :=
  [105, 109, 112, 111, 114, 116, 32, 109, 97, 99, 104, 105, 110, 101, 13, 10]

/-- UTF-8 bytes of `"machine.reset()\r\n"` (studuinobit.py:221). -/
def machineResetCmd : List Nat :=
  [109, 97, 99, 104, 105, 110, 101, 46, 114, 101, 115, 101, 116, 40, 41, 13, 10]

/-- UTF-8 bytes of the device ready sentinel
`"Execute last selected script."` (studuinobit.py:226). -/
def readyTok : List Nat :=
  [69, 120, 101, 99, 117, 116, 101, 32, 108, 97, 115, 116, 32, 115, 101, 108,
   101, 99, 116, 101, 100, 32, 115, 99, 114, 105, 112, 116, 46]

/-- Observable interaction of a reboot-handshake run on a serial session:
the byte strings written, the tokens passed to the `read_until` reads that
were attempted, and on success the chunks of the input stream left unread
(`none` means the run aborted with `TimeoutError`). -/
structure ProtoTrace where
  writes : List (List Nat)
  reads : List (List Nat)
  rest : Option (List (List Nat))
deriving DecidableEq

/-- `StuduinoBitMode.reboot(serial)` (studuinobit.py:215-227): write Ctrl-C,
read until the prompt, write Ctrl-A, the `import machine` line, the
`machine.reset()` line and Ctrl-D (with only untimed `time.sleep` pauses in
between), then read until the ready sentinel.  A `read_until` timeout raises,
aborting everything after it. -/
def StuduinoBitMode.reboot (chunks : List (List Nat)) : ProtoTrace :=
  match readUntilCore promptTok [] chunks with
  | none => ⟨[ctrlC], [promptTok], none⟩
  | some c1 =>
    match readUntilCore readyTok [] c1 with
    | none =>
      ⟨[ctrlC, ctrlA, importMachineCmd, machineResetCmd, ctrlD],
       [promptTok, readyTok], none⟩
    | some c2 =>
      ⟨[ctrlC, ctrlA, importMachineCmd, machineResetCmd, ctrlD],
       [promptTok, readyTok], some c2⟩

/-- `StuduinoBitMode.reboot_and_prompt(serial)` (studuinobit.py:229-233):
run `reboot`, then write another Ctrl-C and read until the prompt again.
An exception from `reboot` propagates, so nothing further is written or
read in that case. -/
def StuduinoBitMode.reboot_and_prompt (chunks : List (List Nat)) : ProtoTrace :=
  let t := StuduinoBitMode.reboot chunks
  match t.rest with
  | none => t
  | some c2 =>
    match readUntilCore promptTok [] c2 with
    | none => ⟨t.writes ++ [ctrlC], t.reads ++ [promptTok], none⟩
    | some c3 => ⟨t.writes ++ [ctrlC], t.reads ++ [promptTok], some c3⟩

/-- Host platform as reported by Python `os.name`. -/
inductive OSName
  | posix
  | nt
  | other (name : String)
deriving DecidableEq

/-- Failure raised by `MicroPythonMode.port_path` on an unsupported host
platform (`NotImplementedError` in base.py:296). -/
inductive PortLookupErr
  | unsupportedPlatform (msg : String)
deriving DecidableEq

/-- One entry of `QSerialPortInfo.availablePorts()` as read by
`find_device`: USB identifiers, port name and serial number. -/
structure PortInfo where
  vendorIdentifier : Nat
  productIdentifier : Nat
  portName : String
  serialNumber : String
deriving DecidableEq

/-- `MicroPythonMode.port_path(port_name)` (base.py:287-296): on POSIX
prepend the device directory, on Windows pass the name through, otherwise
raise `NotImplementedError`. -/
def MicroPythonMode.port_path (osname : OSName) (port_name : String) :
    Except PortLookupErr String :=
  match osname with
  | .posix => .ok ("/dev/" ++ port_name)
  | .nt => .ok port_name
  | .other s => .error (.unsupportedPlatform ("OS \"" ++ s ++ "\" not supported."))

/-- The membership test of `find_device` (base.py:262-265): the port's
`(vid, pid)` pair is in the board table, or its `(vid, None)` pair is.
Table entries with `none` as product id are vendor-only wildcards. -/
def matchesBoard (valid_boards : List (Nat × Option Nat)) (p : PortInfo) : Bool :=
  valid_boards.contains (p.vendorIdentifier, some p.productIdentifier) ||
    valid_boards.contains (p.vendorIdentifier, none)

/-- `MicroPythonMode.find_device()` (base.py:251-285): walk the available
ports in enumeration order; on the first port whose identifiers match the
board table return `(port_path(port_name), serial_number)`; if none match
return the sentinel `(None, None)`, modelled as `none`.  Logging is ignored. -/
def MicroPythonMode.find_device (osname : OSName)
    (valid_boards : List (Nat × Option Nat)) :
    List PortInfo → Except PortLookupErr (Option (String × String))
  | [] => .ok none
  | p :: rest =>
    if matchesBoard valid_boards p then
      match MicroPythonMode.port_path osname p.portName with
      | .ok path => .ok (some (path, p.serialNumber))
      | .error e => .error e
    else MicroPythonMode.find_device osname valid_boards rest

/-- `StuduinoBitMode.valid_boards` (studuinobit.py:72-75). -/
def StuduinoBitMode.valid_boards : List (Nat × Option Nat) :=
  [(0x20A0, some 0x4269)]

/-- POSIX `os.path.basename`: the part of the path after the last slash. -/
def basenameChars (p : List Char) : List Char :=
  p.foldl (fun acc c => if c = '/' then [] else acc.concat c) []

/-- `os.path.basename` on a `String` (POSIX separator convention). -/
def basename (s : String) : String := String.mk (basenameChars s.data)

theorem slash_not_mem_basename_foldl (p : List Char) :
    ∀ acc : List Char, '/' ∉ acc →
      '/' ∉ p.foldl (fun acc c => if c = '/' then [] else acc.concat c) acc := by
  induction p with
  | nil => intro acc h; simpa using h
  | cons c rest ih =>
    intro acc h
    simp only [List.foldl_cons]
    by_cases hc : c = '/'
    · rw [if_pos hc]
      exact ih [] (by simp)
    · rw [if_neg hc]
      refine ih _ ?_
      simp only [List.concat_eq_append, List.mem_append, List.mem_singleton]
      rintro (hm | hm)
      · exact h hm
      · exact hc hm.symm

theorem slash_not_mem_basenameChars (p : List Char) : '/' ∉ basenameChars p :=
  slash_not_mem_basename_foldl p [] (by simp)

theorem basename_ne_of_slash_mem (s : String) (h : '/' ∈ s.data) :
    basename s ≠ s := by
  intro he
  have hd : basenameChars s.data = s.data := congrArg String.data he
  exact slash_not_mem_basenameChars s.data (by rw [hd]; exact h)

/-- Qt signals emitted by `FileManager` / `StuduinoBitFileManager`
(base.py:411-427): exactly these notifications carry operation outcomes to
the UI thread. -/
inductive FMSignal
  | onListFiles (files : List String)
  | onGetFile (filename : String)
  | onPutFile (filename : String)
  | onDeleteFile (filename : String)
  | onListFail
  | onGetFail (filename : String)
  | onPutFail (filename : String)
  | onDeleteFail (filename : String)
deriving DecidableEq

/-- `FileManager.get(device_filename, local_filename)` (base.py:461-472).
`op` is the outcome of the underlying `microfs.get` call (an `Except`
since any exception is caught).  The returned list is the sequence of
signals emitted by the call. -/
def FileManager.get (op : Except String Unit)
    (device_filename local_filename : String) : List FMSignal :=
  match op with
  | .ok _ => [.onGetFile device_filename]
  | .error _ => [.onGetFail device_filename]

/-- `FileManager.put(local_filename)` (base.py:474-485): on success emit the
basename of the local file, on failure emit the full local path. -/
def FileManager.put (op : Except String Unit) (local_filename : String) :
    List FMSignal :=
  match op with
  | .ok _ => [.onPutFile (basename local_filename)]
  | .error _ => [.onPutFail local_filename]

/-- `FileManager.delete(device_filename)` (base.py:487-497). -/
def FileManager.delete (op : Except String Unit) (device_filename : String) :
    List FMSignal :=
  match op with
  | .ok _ => [.onDeleteFile device_filename]
  | .error _ => [.onDeleteFail device_filename]

/-- `FileManager.ls()` (base.py:449-459): `op` is the outcome of
`microfs.ls`, a tuple of filenames on success. -/
def FileManager.ls (op : Except String (List String)) : List FMSignal :=
  match op with
  | .ok result => [.onListFiles result]
  | .error _ => [.onListFail]

/-- `FileManager.on_start()` (base.py:436-447): open a pyserial connection
(`serialOk` is whether the constructor succeeded) and list files; a failure
at either stage ends in `on_list_fail` (note `ls` catches its own failures,
so the outer handler only sees the `Serial(...)` failure). -/
def FileManager.on_start (serialOk : Bool) (lsOp : Except String (List String)) :
    List FMSignal :=
  if serialOk then FileManager.ls lsOp else [.onListFail]

/-- `StuduinoBitFileManager.tree()` (base.py:525-535), same shape as `ls`
but emitting the tree produced by `microfs.tree`. -/
def StuduinoBitFileManager.tree (op : Except String (List String)) :
    List FMSignal :=
  match op with
  | .ok result => [.onListFiles result]
  | .error _ => [.onListFail]

/-- `StuduinoBitFileManager.on_start()` (base.py:512-523). -/
def StuduinoBitFileManager.on_start (serialOk : Bool)
    (treeOp : Except String (List String)) : List FMSignal :=
  if serialOk then StuduinoBitFileManager.tree treeOp else [.onListFail]

/-- `StuduinoBitFileManager.put(local_filename, dist)` (base.py:537-553):
upload to `dist + "/" + basename(local_filename)`; on success emit the
basename, on failure emit the full local path. -/
def StuduinoBitFileManager.put (op : Except String Unit)
    (local_filename dist : String) : List FMSignal :=
  match op with
  | .ok _ => [.onPutFile (basename local_filename)]
  | .error _ => [.onPutFail local_filename]

/-- UTF-8 bytes of the literal error marker `"Error"` scanned for in
captured output (dialogs.py:713). -/
def errMarker : List Nat := [69, 114, 114, 111, 114]

/-- The per-library result classification of `LibraryInstallWidget.install`
(dialogs.py:713-716): the captured output `out` of the `upip.install`
command batch is flagged as failed (`"NG"`) exactly when it contains the
literal bytes `b"Error"`; otherwise it is flagged `"OK"`.  `true` means
flagged as failed. -/
def LibraryInstallWidget.flaggedFailed (out : List Nat) : Bool :=
  bcontains out errMarker

/-- The result table built by the install loop of
`LibraryInstallWidget.install`: each requested library is paired with the
failure flag computed from its captured output. -/
def LibraryInstallWidget.install (libs : List (String × List Nat)) :
    List (String × Bool) :=
  libs.map fun p => (p.1, LibraryInstallWidget.flaggedFailed p.2)

/-- Serial-port operations performed by `open_serial_link`
(studuinobit.py:173-194 and dialogs.py:506-527): `qt...` events are on the
`QSerialPort` toolkit object, `py...` events on a pyserial handle. -/
inductive SerialEv
  | qtOpen
  | qtSetDTR
  | qtClose
  | qtSetBaud (rate : Nat)
  | pyOpen
  | pySetDTR
  | pyClose
deriving DecidableEq

/-- Exceptions that `open_serial_link` can raise: the explicit `IOError`
when the initial open fails, and Python's `NameError` when a bare name used
in the body is not bound in any enclosing scope. -/
inductive LinkErr
  | ioError (msg : String)
  | nameError (missing : String)
deriving DecidableEq

/-- Module-level names bound by the import statements and assignments of
`mu/modes/studuinobit.py` (lines 19-45): note that line 42 reads
`from serial import Serial`, so only `Serial` is bound, never `serial`. -/
def studuinobitGlobals : List String :=
  ["logging", "os", "time", "MicroPythonMode", "StuduinoBitFileManager",
   "STUDUINOBIT_APIS", "SHARED_APIS", "CHARTS", "QIODevice", "QThread",
   "QTimer", "QDialog", "QGridLayout", "QPushButton", "QHBoxLayout",
   "QGroupBox", "QLabel", "QMessageBox", "sbfs", "HOME_DIRECTORY",
   "WORKSPACE_NAME", "save_and_encode", "Serial", "QSerialPort", "logger",
   "StuduinoBitMode", "RegisterWindow"]

/-- Module-level names bound by the import statements and assignments of
`mu/interface/dialogs.py` (lines 19-52): no pyserial name is imported at
all, neither `serial` nor `Serial`. -/
def dialogsGlobals : List String :=
  ["os", "sys", "logging", "csv", "shutil", "re", "QtCore", "QSize",
   "QProcess", "QTimer", "Qt", "QIODevice", "QSerialPort", "QHBoxLayout",
   "QVBoxLayout", "QGridLayout", "QListWidget", "QLabel", "QListWidgetItem",
   "QDialog", "QDialogButtonBox", "QPlainTextEdit", "QTabWidget", "QWidget",
   "QCheckBox", "QLineEdit", "QPushButton", "QFileDialog", "QGroupBox",
   "QComboBox", "QMessageBox", "QTextCursor", "load_icon", "Process",
   "MODULE_DIR", "sbfs", "logger"]

/-- `open_serial_link(port)` (studuinobit.py:173-194, and the identical copy
dialogs.py:506-527).  `moduleGlobals` is the set of module-level names of
the defining module (the method body has no local binding for `serial`, so
the expression `serial.Serial(port)` in the DTR-fallback branch resolves the
bare name `serial` against module globals, raising `NameError` when absent).
Inputs: `openOk` is whether `QSerialPort.open(ReadWrite)` succeeds, and
`dtrEffective` is whether `isDataTerminalReady()` reports the DTR assertion
as effective.  Returns the trace of performed port operations and the
exception raised, if any. -/
def open_serial_link (moduleGlobals : List String) (openOk dtrEffective : Bool)
    (port : String) : List SerialEv × Option LinkErr :=
  if openOk then
    if dtrEffective then
      ([.qtOpen, .qtSetDTR, .qtSetBaud 115200], none)
    else if moduleGlobals.contains "serial" then
      ([.qtOpen, .qtSetDTR, .qtClose, .pyOpen, .pySetDTR, .pyClose, .qtOpen,
        .qtSetBaud 115200], none)
    else
      ([.qtOpen, .qtSetDTR, .qtClose], some (.nameError "serial"))
  else
    ([], some (.ioError ("Cannot connect to device on port " ++ port)))

/-- The three mutually exclusive consumer flags of `StuduinoBitMode`
(`self.repl`, `self.plotter`, `self.fs`); Python stores `None`/`False`/truthy
values, modelled by their truthiness. -/
structure ModeState where
  repl : Bool
  plotter : Bool
  fs : Bool
deriving DecidableEq

/-- A `view.show_message(message, information)` call, identified by its
`message` (title) argument. -/
inductive Notice
  | showMessage (message : String)
deriving DecidableEq

/-- "Could not find an attached device." (studuinobit.py:59). -/
def deviceNotFoundMsg : String := "Could not find an attached device."

/-- Rejection title shown by `toggle_files` when the REPL is active
(studuinobit.py:447-450). -/
def fsVsReplMsg : String :=
  "File system cannot work at the same time as the REPL or plotter."

/-- Rejection title shown by `toggle_repl` when the filesystem is active
(studuinobit.py:164). -/
def replVsFsMsg : String :=
  "REPL and file system cannot work at the same time."

/-- Rejection title shown by `toggle_plotter` when the filesystem is active
(studuinobit.py:349-351). -/
def plotterVsFsMsg : String :=
  "The plotter and file system cannot work at the same time."

/-- `StuduinoBitMode.toggle_files(event)` (studuinobit.py:441-471) together
with `add_fs` (473-495) and `remove_fs` (497-504).  `devicePresent` is
whether `find_device` finds a port.  Button enabling, logging and the
file-manager thread machinery are not modelled; the result is the new
consumer flags and the list of `show_message` notifications. -/
def StuduinoBitMode.toggle_files (devicePresent : Bool) (s : ModeState) :
    ModeState × List Notice :=
  if s.repl then
    (s, [.showMessage fsVsReplMsg])
  else if s.fs = false then
    -- add_fs
    if devicePresent then ({ s with fs := true }, [])
    else (s, [.showMessage deviceNotFoundMsg])
  else
    -- remove_fs
    ({ s with fs := false }, [])

/-- `StuduinoBitMode.toggle_repl(event)` (studuinobit.py:141-171) together
with `MicroPythonMode.toggle_repl`/`remove_repl` (base.py:298-314) and the
overridden `add_repl` (studuinobit.py:514-538).  `replOpenOk` is whether
`view.add_studuionbit_repl` succeeds; `exText` is the text of the `IOError`
shown when it does not.  Timer and button side effects are not modelled. -/
def StuduinoBitMode.toggle_repl (devicePresent replOpenOk : Bool)
    (exText : String) (s : ModeState) : ModeState × List Notice :=
  if s.fs = false then
    if s.repl then
      ({ s with repl := false }, [])
    else
      -- add_repl
      if devicePresent then
        if replOpenOk then ({ s with repl := true }, [])
        else (s, [.showMessage exText])
      else (s, [.showMessage deviceNotFoundMsg])
  else
    (s, [.showMessage replVsFsMsg])

/-- `StuduinoBitMode.toggle_plotter(event)` (studuinobit.py:332-358)
together with `MicroPythonMode.toggle_plotter`/`add_plotter`
(base.py:351-392) and `BaseMode.remove_plotter` (base.py:186-207). -/
def StuduinoBitMode.toggle_plotter (devicePresent plotterOpenOk : Bool)
    (exText : String) (s : ModeState) : ModeState × List Notice :=
  if s.fs = false then
    if s.plotter then
      ({ s with plotter := false }, [])
    else
      -- add_plotter
      if devicePresent then
        if plotterOpenOk then ({ s with plotter := true }, [])
        else (s, [.showMessage exText])
      else (s, [.showMessage deviceNotFoundMsg])
  else
    (s, [.showMessage plotterVsFsMsg])

/-- Steps performed by `StuduinoBitMode.toggle_flash` (studuinobit.py:235-330),
in the order they are executed: each constructor is one observable action
(a serial-session lifecycle event, a user-visible dialog or message, or one
of the transfer steps). -/
inductive FlashEv
  | openSerial
  | dialogShown
  | selectSlot (reg_num : String)
  | saveAttempt (usr_file : String)
  | rebootAttempt
  | uploadAttempt (target : String)
  | recordAttempt (reg_num : String)
  | reboot2Attempt
  | errorMsg (title : String)
  | successMsg
  | closeSerial
deriving DecidableEq

/-- Local staging path built by the `save()` helper of `toggle_flash`
(studuinobit.py:248-253): `os.path.join(HOME_DIRECTORY, WORKSPACE_NAME,
"studuinobit", "usr" + reg_num + ".py")`, with the POSIX separator. -/
def usrPath (home workspace reg_num : String) : String :=
  home ++ "/" ++ workspace ++ "/studuinobit/usr" ++ reg_num ++ ".py"

/-- `StuduinoBitMode.toggle_flash(event)` (studuinobit.py:235-330).
Inputs model the outcome of each fallible step: `openOk` covers
`find_device` + `open_serial_link`; `dialogResult` is the slot string chosen
in `RegisterWindow` (`none` = the dialog was cancelled); `saveOk` is
`save_and_encode`; `rebootOk` is `reboot_and_prompt`; `uploadOk` is
`sbfs.put`; `recordOk` is the `sbfs.execute` of the `nvs_setint` batch and
`reboot2Ok` the final `self.reboot` (both inside the `restart` helper and
guarded by one try/except).  The result is the ordered list of performed
actions. -/
def StuduinoBitMode.toggle_flash (home workspace : String) (openOk : Bool)
    (dialogResult : Option String)
    (saveOk rebootOk uploadOk recordOk reboot2Ok : Bool) : List FlashEv :=
  if openOk then
    .openSerial ::
    .dialogShown ::
    (match dialogResult with
     | none => [.closeSerial]
     | some reg_num =>
       let usr_file := usrPath home workspace reg_num
       .selectSlot reg_num :: .saveAttempt usr_file ::
       (if saveOk then
          .rebootAttempt ::
          (if rebootOk then
             .uploadAttempt ("usr/" ++ basename usr_file) ::
             (if uploadOk then
                .recordAttempt reg_num ::
                (if recordOk then
                   .reboot2Attempt ::
                   (if reboot2Ok then [.successMsg, .closeSerial]
                    else [.errorMsg "Restart Error", .closeSerial])
                 else [.errorMsg "Restart Error", .closeSerial])
              else [.errorMsg "Uploade Error", .closeSerial])
           else [.errorMsg "Reboot Error", .closeSerial])
        else [.errorMsg "File Save Error.", .closeSerial]))
  else
    [.errorMsg deviceNotFoundMsg]

/-- C3: for every board table and every port list, `find_device` returns the
first port (in enumeration order) whose `(vendor, product)` or
`(vendor, None)` pair is in the table, as its normalized path paired with
its serial number; and it returns the `(None, None)` sentinel exactly when
no port matches. -/
theorem find_device_first_match_spec (valid_boards : List (Nat × Option Nat))
    (ports : List PortInfo) :
    MicroPythonMode.find_device .posix valid_boards ports
      = .ok ((ports.find? (matchesBoard valid_boards)).map
          fun p => ("/dev/" ++ p.portName, p.serialNumber))
    ∧ (MicroPythonMode.find_device .posix valid_boards ports = .ok none ↔
        ∀ p ∈ ports, matchesBoard valid_boards p = false) := by
  have h1 : ∀ ps : List PortInfo,
      MicroPythonMode.find_device .posix valid_boards ps
        = .ok ((ps.find? (matchesBoard valid_boards)).map
            fun p => ("/dev/" ++ p.portName, p.serialNumber)) := by
    intro ps
    induction ps with
    | nil => rfl
    | cons p rest ih =>
      by_cases h : matchesBoard valid_boards p
      · simp [MicroPythonMode.find_device, h, MicroPythonMode.port_path]
      · simp [MicroPythonMode.find_device, h, ih]
  refine ⟨h1 ports, ?_⟩
  rw [h1 ports]
  simp only [Except.ok.injEq, Option.map_eq_none', List.find?_eq_none,
    Bool.not_eq_true]

/-- C8: `port_path` prepends "/dev/" on POSIX, passes the name through on
Windows, and raises `NotImplementedError` on any other platform; with the
Studuino:bit board table and a scanned port (vid 0x20A0, pid 0x4269, name
"ttyACM0"), `find_device` on a POSIX host returns "/dev/ttyACM0". -/
theorem port_path_spec :
    (∀ n, MicroPythonMode.port_path .posix n = .ok ("/dev/" ++ n))
    ∧ (∀ n, MicroPythonMode.port_path .nt n = .ok n)
    ∧ (∀ s n, MicroPythonMode.port_path (.other s) n
        = .error (.unsupportedPlatform ("OS \"" ++ s ++ "\" not supported.")))
    ∧ MicroPythonMode.find_device .posix StuduinoBitMode.valid_boards
        [⟨0x20A0, 0x4269, "ttyACM0", "123456"⟩]
      = .ok (some ("/dev/ttyACM0", "123456")) := by
  refine ⟨fun n => rfl, fun n => rfl, fun s n => rfl, ?_⟩
  rfl

/-- C9: the install result for each library is flagged as failed exactly
when the raw captured output contains the literal marker substring "Error";
in particular output "Error: bad import" followed by a well-formed prompt is
flagged failed, and marker-free output is flagged as success. -/
theorem install_error_marker_spec :
    (∀ out, LibraryInstallWidget.flaggedFailed out = true ↔ errMarker <:+: out)
    ∧ (∀ libs lib out, (lib, out) ∈ libs →
        (lib, LibraryInstallWidget.flaggedFailed out)
          ∈ LibraryInstallWidget.install libs)
    ∧ LibraryInstallWidget.flaggedFailed
        [69, 114, 114, 111, 114, 58, 32, 98, 97, 100, 32, 105, 109, 112, 111,
         114, 116, 13, 10, 62, 62, 62, 32] = true
    ∧ LibraryInstallWidget.flaggedFailed [50, 13, 10, 62, 62, 62, 32] = false := by
  refine ⟨fun out => bcontains_iff out errMarker, ?_, by decide, by decide⟩
  intro libs lib out hmem
  exact List.mem_map_of_mem (fun p => (p.1, LibraryInstallWidget.flaggedFailed p.2)) hmem

/-- C9 witness: the second conjunct instantiated at a concrete library list,
output and membership proof. -/
theorem install_error_marker_spec_witness :
    ("lib", LibraryInstallWidget.flaggedFailed [69, 114, 114, 111, 114])
      ∈ LibraryInstallWidget.install [("lib", [69, 114, 114, 111, 114])] :=
  install_error_marker_spec.2.1 [("lib", [69, 114, 114, 111, 114])] "lib"
    [69, 114, 114, 111, 114] (by decide)

/-- C7: a failed `get` emits exactly one get-failure notification carrying
the requested device filename and never a success notification, and every
file-manager operation emits exactly one notification per call. -/
theorem file_manager_single_notification_spec :
    (∀ d l, FileManager.get (.ok ()) d l = [.onGetFile d])
    ∧ (∀ e d l, FileManager.get (.error e) d l = [.onGetFail d])
    ∧ (∀ e d l n, FMSignal.onGetFile n ∉ FileManager.get (.error e) d l)
    ∧ (∀ op d l, (FileManager.get op d l).length = 1)
    ∧ (∀ op l, (FileManager.put op l).length = 1)
    ∧ (∀ op d, (FileManager.delete op d).length = 1)
    ∧ (∀ op, (FileManager.ls op).length = 1)
    ∧ (∀ serialOk op, (FileManager.on_start serialOk op).length = 1)
    ∧ (∀ op l dist, (StuduinoBitFileManager.put op l dist).length = 1)
    ∧ (∀ serialOk op, (StuduinoBitFileManager.on_start serialOk op).length = 1) := by
  refine ⟨fun d l => rfl, fun e d l => rfl, ?_, ?_, ?_, ?_, ?_, ?_, ?_, ?_⟩
  · intro e d l n
    simp [FileManager.get]
  · intro op d l; cases op <;> rfl
  · intro op l; cases op <;> rfl
  · intro op d; cases op <;> rfl
  · intro op; cases op <;> rfl
  · intro serialOk op; cases serialOk <;> cases op <;> rfl
  · intro op l dist; cases op <;> rfl
  · intro serialOk op; cases serialOk <;> cases op <;> rfl

/-- C10: `put` emits asymmetric payloads: the success notification carries
only the basename of the local file while the failure notification carries
the full local path; for any local path containing a directory component the
two payloads differ. -/
theorem put_payload_asymmetry_spec (local_filename dist e : String)
    (h : '/' ∈ local_filename.data) :
    StuduinoBitFileManager.put (.ok ()) local_filename dist
      = [.onPutFile (basename local_filename)]
    ∧ StuduinoBitFileManager.put (.error e) local_filename dist
      = [.onPutFail local_filename]
    ∧ FileManager.put (.ok ()) local_filename
      = [.onPutFile (basename local_filename)]
    ∧ FileManager.put (.error e) local_filename = [.onPutFail local_filename]
    ∧ basename local_filename ≠ local_filename :=
  ⟨rfl, rfl, rfl, rfl, basename_ne_of_slash_mem local_filename h⟩

/-- C10 witness: the asymmetry at the concrete path "mu_code/usr3.py". -/
theorem put_payload_asymmetry_spec_witness :
    StuduinoBitFileManager.put (.ok ()) "mu_code/usr3.py" "usr"
      = [.onPutFile (basename "mu_code/usr3.py")]
    ∧ StuduinoBitFileManager.put (.error "boom") "mu_code/usr3.py" "usr"
      = [.onPutFail "mu_code/usr3.py"]
    ∧ FileManager.put (.ok ()) "mu_code/usr3.py"
      = [.onPutFile (basename "mu_code/usr3.py")]
    ∧ FileManager.put (.error "boom") "mu_code/usr3.py"
      = [.onPutFail "mu_code/usr3.py"]
    ∧ basename "mu_code/usr3.py" ≠ "mu_code/usr3.py" :=
  put_payload_asymmetry_spec "mu_code/usr3.py" "usr" "boom" (by decide)

/-- C1 counterexample: on a stream whose very first chunk is the token
itself, `read_until` succeeds but its Python return value is None, not the
accumulated buffer (here the buffer would be exactly the token). -/
theorem read_until_returns_none_counterexample :
    StuduinoBitMode.read_until promptTok [promptTok] = .ok none
    ∧ StuduinoBitMode.read_until promptTok [promptTok]
        ≠ .ok (some promptTok) := by
  have h : StuduinoBitMode.read_until promptTok [promptTok] = .ok none := by rfl
  refine ⟨h, ?_⟩
  rw [h]
  intro hcontra
  exact Option.noConfusion (Except.ok.inj hcontra)

/-- C1 (amended): `read_until` accumulates the bytes read from the session
into an internal buffer and terminates successfully, with Python return
value None rather than the buffer, as soon as some read makes the token a
contiguous substring of the buffer; when no prefix of the delivered stream
ever contains the token it fails with TimeoutError (from the wait-for-data
primitive reporting no data), regardless of how much non-matching data
arrived in the meantime. -/
theorem read_until_amended_spec (token : List Nat) (chunks : List (List Nat)) :
    (StuduinoBitMode.read_until token chunks = .ok none
      ∨ StuduinoBitMode.read_until token chunks = .error timeoutMsg)
    ∧ (StuduinoBitMode.read_until token chunks = .ok none ↔
        ∃ k, 0 < k ∧ k ≤ chunks.length ∧
          bcontains ((chunks.take k).flatten) token = true)
    ∧ (StuduinoBitMode.read_until token chunks = .error timeoutMsg ↔
        ¬ ∃ k, 0 < k ∧ k ≤ chunks.length ∧
          bcontains ((chunks.take k).flatten) token = true) := by
  have hiff := readUntilCore_isSome_iff token chunks []
  simp only [List.nil_append] at hiff
  have hok : StuduinoBitMode.read_until token chunks = .ok none ↔
      (readUntilCore token [] chunks).isSome = true := by
    unfold StuduinoBitMode.read_until
    cases readUntilCore token [] chunks <;> simp
  have herr : StuduinoBitMode.read_until token chunks = .error timeoutMsg ↔
      ¬ (readUntilCore token [] chunks).isSome = true := by
    unfold StuduinoBitMode.read_until
    cases readUntilCore token [] chunks <;> simp
  refine ⟨?_, hok.trans hiff, herr.trans (not_congr hiff)⟩
  unfold StuduinoBitMode.read_until
  cases readUntilCore token [] chunks
  · exact Or.inr rfl
  · exact Or.inl rfl

/-- C2 (code bug): toggling the filesystem navigator while the plotter is
active (REPL off) is not rejected — the filesystem starts and no
notification is shown — although the reverse directions (REPL blocks the
filesystem; the filesystem blocks REPL and plotter) do reject with exactly
one notification and no state change. -/
theorem toggle_files_plotter_not_blocked :
    StuduinoBitMode.toggle_files true ⟨false, true, false⟩
      = (⟨false, true, true⟩, [])
    ∧ (⟨false, true, true⟩ : ModeState) ≠ ⟨false, true, false⟩
    ∧ StuduinoBitMode.toggle_files true ⟨true, false, false⟩
      = (⟨true, false, false⟩, [.showMessage fsVsReplMsg])
    ∧ StuduinoBitMode.toggle_repl true true "ex" ⟨false, false, true⟩
      = (⟨false, false, true⟩, [.showMessage replVsFsMsg])
    ∧ StuduinoBitMode.toggle_plotter true true "ex" ⟨false, false, true⟩
      = (⟨false, false, true⟩, [.showMessage plotterVsFsMsg]) := by
  refine ⟨rfl, by decide, rfl, rfl, rfl⟩

/-- C4 (code bug): the happy path opens the port, asserts DTR and sets the
baud rate to 115200, and a failing initial open raises an IOError carrying
the port path; but when the toolkit's DTR assertion is not observably
effective, the fallback branch closes the port and then raises NameError,
because neither defining module binds the name `serial` (studuinobit.py
imports only `Serial`, dialogs.py imports nothing from pyserial): the
pyserial reopen, the Qt reopen and the baud configuration never happen. -/
theorem open_serial_link_dtr_fallback_name_error :
    (∀ g p, open_serial_link g true true p
      = ([.qtOpen, .qtSetDTR, .qtSetBaud 115200], none))
    ∧ (∀ g d p, open_serial_link g false d p
      = ([], some (.ioError ("Cannot connect to device on port " ++ p))))
    ∧ open_serial_link studuinobitGlobals true false "COM3"
      = ([.qtOpen, .qtSetDTR, .qtClose], some (.nameError "serial"))
    ∧ open_serial_link dialogsGlobals true false "COM3"
      = ([.qtOpen, .qtSetDTR, .qtClose], some (.nameError "serial"))
    ∧ studuinobitGlobals.contains "serial" = false
    ∧ studuinobitGlobals.contains "Serial" = true
    ∧ dialogsGlobals.contains "serial" = false
    ∧ SerialEv.pyOpen ∉ (open_serial_link studuinobitGlobals true false "COM3").1
    ∧ SerialEv.qtSetBaud 115200
        ∉ (open_serial_link studuinobitGlobals true false "COM3").1 := by
  refine ⟨fun g p => rfl, fun g d p => rfl, ?_, ?_, ?_, ?_, ?_, ?_, ?_⟩ <;> decide

/-- C5: the reboot handshake writes exactly, in order, 0x03, (read until
">>> "), 0x01, the "import machine" line, the "machine.reset()" line, 0x04,
then reads until the device ready sentinel; `reboot_and_prompt` then writes
another 0x03 and reads until ">>> " again; and when the device never emits
the ready sentinel the run fails with TimeoutError and performs no further
writes or reads after the timed-out read. -/
theorem reboot_handshake_spec (chunks c1 c2 c3 : List (List Nat)) :
    (readUntilCore promptTok [] chunks = some c1 →
      readUntilCore readyTok [] c1 = some c2 →
        StuduinoBitMode.reboot chunks
          = ⟨[ctrlC, ctrlA, importMachineCmd, machineResetCmd, ctrlD],
             [promptTok, readyTok], some c2⟩
        ∧ (readUntilCore promptTok [] c2 = some c3 →
            StuduinoBitMode.reboot_and_prompt chunks
              = ⟨[ctrlC, ctrlA, importMachineCmd, machineResetCmd, ctrlD,
                  ctrlC],
                 [promptTok, readyTok, promptTok], some c3⟩))
    ∧ (readUntilCore promptTok [] chunks = some c1 →
        readUntilCore readyTok [] c1 = none →
          StuduinoBitMode.reboot chunks
            = ⟨[ctrlC, ctrlA, importMachineCmd, machineResetCmd, ctrlD],
               [promptTok, readyTok], none⟩
          ∧ StuduinoBitMode.reboot_and_prompt chunks
            = ⟨[ctrlC, ctrlA, importMachineCmd, machineResetCmd, ctrlD],
               [promptTok, readyTok], none⟩) := by
  constructor
  · intro h1 h2
    have hr : StuduinoBitMode.reboot chunks
        = ⟨[ctrlC, ctrlA, importMachineCmd, machineResetCmd, ctrlD],
           [promptTok, readyTok], some c2⟩ := by
      unfold StuduinoBitMode.reboot
      rw [h1]
      simp only [h2]
    refine ⟨hr, ?_⟩
    intro h3
    unfold StuduinoBitMode.reboot_and_prompt
    rw [hr]
    simp [h3]
  · intro h1 h2
    have hr : StuduinoBitMode.reboot chunks
        = ⟨[ctrlC, ctrlA, importMachineCmd, machineResetCmd, ctrlD],
           [promptTok, readyTok], none⟩ := by
      unfold StuduinoBitMode.reboot
      rw [h1]
      simp only [h2]
    refine ⟨hr, ?_⟩
    unfold StuduinoBitMode.reboot_and_prompt
    rw [hr]

/-- C5 witness: both branches of the handshake theorem at concrete streams —
a stream delivering prompt, ready sentinel and prompt in order, and a stream
that delivers the prompt and then only non-matching data. -/
theorem reboot_handshake_spec_witness :
    (StuduinoBitMode.reboot [promptTok, readyTok, promptTok]
      = ⟨[ctrlC, ctrlA, importMachineCmd, machineResetCmd, ctrlD],
         [promptTok, readyTok], some [promptTok]⟩
     ∧ StuduinoBitMode.reboot_and_prompt [promptTok, readyTok, promptTok]
      = ⟨[ctrlC, ctrlA, importMachineCmd, machineResetCmd, ctrlD, ctrlC],
         [promptTok, readyTok, promptTok], some []⟩)
    ∧ (StuduinoBitMode.reboot [promptTok, [0x41]]
      = ⟨[ctrlC, ctrlA, importMachineCmd, machineResetCmd, ctrlD],
         [promptTok, readyTok], none⟩
     ∧ StuduinoBitMode.reboot_and_prompt [promptTok, [0x41]]
      = ⟨[ctrlC, ctrlA, importMachineCmd, machineResetCmd, ctrlD],
         [promptTok, readyTok], none⟩) := by
  have hA := (reboot_handshake_spec [promptTok, readyTok, promptTok]
      [readyTok, promptTok] [promptTok] []).1 (by rfl) (by rfl)
  have hB := (reboot_handshake_spec [promptTok, [0x41]] [[0x41]] [] []).2
      (by rfl) (by rfl)
  exact ⟨⟨hA.1, hA.2 (by rfl)⟩, hB⟩

/-- C6 counterexample: in a fully successful transfer run the serial session
is opened first — slot selection and the staging save happen only after the
open — so the claimed order (select slot, persist, then open the session) is
false. -/
theorem toggle_flash_order_counterexample :
    StuduinoBitMode.toggle_flash "home" "mu_code" true (some "3") true true
        true true true
      = [.openSerial, .dialogShown, .selectSlot "3",
         .saveAttempt "home/mu_code/studuinobit/usr3.py", .rebootAttempt,
         .uploadAttempt "usr/usr3.py", .recordAttempt "3", .reboot2Attempt,
         .successMsg, .closeSerial]
    ∧ ¬ (List.indexOf (FlashEv.selectSlot "3")
          (StuduinoBitMode.toggle_flash "home" "mu_code" true (some "3") true
            true true true true)
        < List.indexOf FlashEv.openSerial
          (StuduinoBitMode.toggle_flash "home" "mu_code" true (some "3") true
            true true true true)) := by
  constructor
  · rfl
  · decide

/-- C6 (amended): the flash operation opens the serial session first, then
selects a destination slot and persists the editor buffer to the staging
file <home>/<workspace>/studuinobit/usr<slot>.py, runs the reboot handshake,
uploads the staged file, records the selected slot as boot target and
reboots again; whenever a step after the open fails, all remaining steps are
skipped (whatever their outcomes would have been), the serial session is
closed and a step-specific error is reported; a failing open reports the
device message without further steps, and a cancelled slot dialog closes the
session silently. -/
theorem toggle_flash_amended_spec (home workspace reg_num : String) :
    (∀ d s r u rc r2,
      StuduinoBitMode.toggle_flash home workspace false d s r u rc r2
        = [.errorMsg deviceNotFoundMsg])
    ∧ (∀ s r u rc r2,
      StuduinoBitMode.toggle_flash home workspace true none s r u rc r2
        = [.openSerial, .dialogShown, .closeSerial])
    ∧ (∀ r u rc r2,
      StuduinoBitMode.toggle_flash home workspace true (some reg_num) false r
          u rc r2
        = [.openSerial, .dialogShown, .selectSlot reg_num,
           .saveAttempt (usrPath home workspace reg_num),
           .errorMsg "File Save Error.", .closeSerial])
    ∧ (∀ u rc r2,
      StuduinoBitMode.toggle_flash home workspace true (some reg_num) true
          false u rc r2
        = [.openSerial, .dialogShown, .selectSlot reg_num,
           .saveAttempt (usrPath home workspace reg_num), .rebootAttempt,
           .errorMsg "Reboot Error", .closeSerial])
    ∧ (∀ rc r2,
      StuduinoBitMode.toggle_flash home workspace true (some reg_num) true
          true false rc r2
        = [.openSerial, .dialogShown, .selectSlot reg_num,
           .saveAttempt (usrPath home workspace reg_num), .rebootAttempt,
           .uploadAttempt ("usr/" ++ basename (usrPath home workspace reg_num)),
           .errorMsg "Uploade Error", .closeSerial])
    ∧ (∀ r2,
      StuduinoBitMode.toggle_flash home workspace true (some reg_num) true
          true true false r2
        = [.openSerial, .dialogShown, .selectSlot reg_num,
           .saveAttempt (usrPath home workspace reg_num), .rebootAttempt,
           .uploadAttempt ("usr/" ++ basename (usrPath home workspace reg_num)),
           .recordAttempt reg_num, .errorMsg "Restart Error", .closeSerial])
    ∧ (StuduinoBitMode.toggle_flash home workspace true (some reg_num) true
          true true true false
        = [.openSerial, .dialogShown, .selectSlot reg_num,
           .saveAttempt (usrPath home workspace reg_num), .rebootAttempt,
           .uploadAttempt ("usr/" ++ basename (usrPath home workspace reg_num)),
           .recordAttempt reg_num, .reboot2Attempt,
           .errorMsg "Restart Error", .closeSerial])
    ∧ (StuduinoBitMode.toggle_flash home workspace true (some reg_num) true
          true true true true
        = [.openSerial, .dialogShown, .selectSlot reg_num,
           .saveAttempt (usrPath home workspace reg_num), .rebootAttempt,
           .uploadAttempt ("usr/" ++ basename (usrPath home workspace reg_num)),
           .recordAttempt reg_num, .reboot2Attempt,
           .successMsg, .closeSerial]) := by
  refine ⟨fun d s r u rc r2 => rfl, fun s r u rc r2 => rfl,
    fun r u rc r2 => rfl, fun u rc r2 => rfl, fun rc r2 => rfl,
    fun r2 => rfl, rfl, rfl⟩
